import Mathlib

/-!
Verification of the Pong implementation in `src/main.rs` (a Bevy app).

The per-frame simulation pipeline is shallowly embedded: each Bevy system
becomes a pure Lean function on explicit state.  `f32` coordinates are
modelled as `ℚ`; every arithmetic operation appearing in the systems under
study (addition, subtraction, multiplication by small constants, `abs`,
`max`/`min` clamping, comparisons) is exact in `f32` on the magnitudes the
claims exercise, so rational arithmetic is a faithful model there.
The random draws produced by `rand::random::<f32>()` (uniform in `[0,1)`)
are passed in as explicit `ℚ` parameters.
-/

namespace Pong

/-- `BALL_RADIUS` constant from `main.rs`. -/
def BALL_RADIUS : ℚ := 5

/-- `PADDLE_WIDTH` constant from `main.rs`. -/
def PADDLE_WIDTH : ℚ := 10

/-- `PADDLE_HEIGHT` constant from `main.rs`. -/
def PADDLE_HEIGHT : ℚ := 50

/-- `GUTTER_HEIGHT` constant from `main.rs`. -/
def GUTTER_HEIGHT : ℚ := 20

/-- `PADDLE_SPEED` constant from `main.rs`. -/
def PADDLE_SPEED : ℚ := 5

/-- A 2-D vector (`bevy::math::Vec2`), with `f32` components modelled as `ℚ`. -/
structure Vec2 where
  x : ℚ
  y : ℚ
deriving DecidableEq, Repr

/-- The `Collision` enum of `main.rs`. -/
inductive Collision where
  | Top
  | Bottom
  | Left
  | Right
deriving DecidableEq, Repr

/-- The `Scorer` enum of `main.rs` (which side scored the point). -/
inductive Scorer where
  | Player
  | Ai
deriving DecidableEq, Repr

/-- The modulus of Rust's `u32`: score increments wrap at `2^32`. -/
def U32_MOD : ℕ := 2 ^ 32

/-- The `Score` resource of `main.rs`: `u32` counters, modelled as naturals
with every increment performed modulo `2^32` (the wrapping semantics of
release-mode `u32` addition). -/
structure Score where
  player : ℕ
  ai : ℕ
deriving DecidableEq, Repr

/-- A non-ball entity as seen by `handle_collisions`' second query:
its `Position` and `Shape` components (paddles and gutters). -/
structure Obstacle where
  position : Vec2
  shape : Vec2
deriving DecidableEq, Repr

/-- `bevy::math::bounding::Aabb2d`: an axis-aligned box stored as min/max corners. -/
structure Aabb2d where
  min : Vec2
  max : Vec2
deriving DecidableEq, Repr

/-- `Aabb2d::new(center, half_size)`: min = center - half_size, max = center + half_size. -/
def Aabb2d.new (center halfSize : Vec2) : Aabb2d :=
  ⟨⟨center.x - halfSize.x, center.y - halfSize.y⟩,
   ⟨center.x + halfSize.x, center.y + halfSize.y⟩⟩

/-- `Aabb2d::closest_point(p)`: clamp the point componentwise into the box
(`p.clamp(self.min, self.max)` in bevy). -/
def Aabb2d.closestPoint (a : Aabb2d) (p : Vec2) : Vec2 :=
  ⟨Min.min (Max.max p.x a.min.x) a.max.x, Min.min (Max.max p.y a.min.y) a.max.y⟩

/-- `bevy::math::bounding::BoundingCircle`: center and radius. -/
structure BoundingCircle where
  center : Vec2
  radius : ℚ
deriving DecidableEq, Repr

/-- Squared Euclidean distance (`Vec2::distance_squared`). -/
def distanceSquared (a b : Vec2) : ℚ :=
  (a.x - b.x) ^ 2 + (a.y - b.y) ^ 2

/-- `BoundingCircle::intersects(&Aabb2d)` from bevy: true iff the squared
distance from the circle center to the box's closest point is `≤ radius²`. -/
def BoundingCircle.intersects (c : BoundingCircle) (a : Aabb2d) : Bool :=
  distanceSquared c.center (a.closestPoint c.center) ≤ c.radius ^ 2

/-- The offset vector `ball.center() - closest_point` computed inside
`collide_with_side`. -/
def collisionOffset (ball : BoundingCircle) (wall : Aabb2d) : Vec2 :=
  ⟨ball.center.x - (wall.closestPoint ball.center).x,
   ball.center.y - (wall.closestPoint ball.center).y⟩

/-- `collide_with_side` from `main.rs`: `None` when the circle does not
intersect the box (the source early-returns); otherwise classify the side by
the offset from the box's closest point: strictly larger `|offset.x|` picks
Left/Right by the sign of `offset.x`, otherwise Top/Bottom by the sign of
`offset.y`. -/
def collide_with_side (ball : BoundingCircle) (wall : Aabb2d) : Option Collision :=
  if ball.intersects wall then
    some
      (if |(collisionOffset ball wall).x| > |(collisionOffset ball wall).y| then
        (if (collisionOffset ball wall).x > 0 then Collision.Left else Collision.Right)
      else
        (if (collisionOffset ball wall).y > 0 then Collision.Bottom else Collision.Top))
  else
    none

/-- The `match` arm of `handle_collisions`: Top/Bottom negate `velocity.y`,
Left/Right negate `velocity.x`. -/
def collisionResponse (v : Vec2) (c : Collision) : Vec2 :=
  match c with
  | Collision.Top => ⟨v.x, -v.y⟩
  | Collision.Bottom => ⟨v.x, -v.y⟩
  | Collision.Left => ⟨-v.x, v.y⟩
  | Collision.Right => ⟨-v.x, v.y⟩

/-- `BoundingCircle::new(ball_position.0, ball_shape.0.x)` as built by
`handle_collisions`. -/
def ballCircle (ballPos ballShape : Vec2) : BoundingCircle :=
  ⟨ballPos, ballShape.x⟩

/-- `Aabb2d::new(position.0, shape.0 / 2.)` as built by `handle_collisions`
for each non-ball entity. -/
def obstacleBox (ob : Obstacle) : Aabb2d :=
  Aabb2d.new ob.position ⟨ob.shape.x / 2, ob.shape.y / 2⟩

/-- One iteration of the `for (position, shape) in &others` loop of
`handle_collisions`: build the obstacle's `Aabb2d` (half-extents `shape/2`),
test with the ball circle (center = ball position, radius = `ball_shape.x`),
and reflect the velocity when a collision is reported. -/
def handle_collisions_step (ballPos ballShape : Vec2) (v : Vec2) (ob : Obstacle) : Vec2 :=
  match collide_with_side (ballCircle ballPos ballShape) (obstacleBox ob) with
  | some c => collisionResponse v c
  | none => v

/-- The `handle_collisions` system: fold the per-obstacle step over all
non-ball entities (ball position is not mutated by this system). -/
def handle_collisions (ballPos ballShape : Vec2) (v : Vec2) (others : List Obstacle) : Vec2 :=
  others.foldl (handle_collisions_step ballPos ballShape) v

/-- The `move_ball` system: `position += velocity`, componentwise. -/
def move_ball (pos v : Vec2) : Vec2 :=
  ⟨pos.x + v.x, pos.y + v.y⟩

/-- The per-paddle body of `move_paddles`: `y += velocity.y`, then
`y = y.max(-H/2 + PADDLE_HEIGHT/2)`, then `y = y.min(H/2 - PADDLE_HEIGHT/2)`,
where `H` is the current window height. -/
def move_paddle_y (y vy H : ℚ) : ℚ :=
  min (max (y + vy) (-(H / 2) + PADDLE_HEIGHT / 2)) (H / 2 - PADDLE_HEIGHT / 2)

/-- The `detect_scoring` system: the list of `Scored` events sent this frame,
given the ball position and the current window width.  `x > width/2` sends
`Scored(Player)`, else `x < -width/2` sends `Scored(Ai)`, else nothing. -/
def detect_scoring (ballPos : Vec2) (windowWidth : ℚ) : List Scorer :=
  if ballPos.x > windowWidth / 2 then [Scorer.Player]
  else if ballPos.x < -windowWidth / 2 then [Scorer.Ai]
  else []

/-- One iteration of the event loop in `update_score`:
`score.player += 1` resp. `score.ai += 1` on `u32`, i.e. addition
modulo `2^32`. -/
def update_score_step (s : Score) (e : Scorer) : Score :=
  match e with
  | Scorer.Player => { s with player := (s.player + 1) % U32_MOD }
  | Scorer.Ai => { s with ai := (s.ai + 1) % U32_MOD }

/-- The `update_score` system: process all pending `Scored` events in order. -/
def update_score (s : Score) (events : List Scorer) : Score :=
  events.foldl update_score_step s

/-- Rust `f32::signum` on the exactly-representable values arising here:
`1` for positive or (+)zero, `-1` for negative. -/
def signumF32 (x : ℚ) : ℚ :=
  if x < 0 then -1 else 1

/-- The body of `reset_ball` for one `Scored` event, with the two
`rand::random::<f32>()` draws `r1` (for the Y component, drawn first) and
`r2` (for the X magnitude) passed explicitly.  Returns the new
(position, velocity) of the ball. -/
def reset_ball (scorer : Scorer) (r1 r2 : ℚ) : Vec2 × Vec2 :=
  let random_v_y := (r1 - 1/2) * 3
  let random_v_y2 := random_v_y + signumF32 random_v_y * 4
  let random_v_x_mag := 4 + r2 * 3
  let x_dir : ℚ :=
    match scorer with
    | Scorer.Player => -1
    | Scorer.Ai => 1
  (⟨0, 0⟩, ⟨x_dir * random_v_x_mag, random_v_y2⟩)

/-- The `handle_player_input` system: given the pressed state of KeyY/KeyN
(player paddle) and KeyW/KeyX (second paddle), return the `velocity.y`
assigned to the player paddle and to the second paddle.  Each paddle's first
key (KeyY resp. KeyW) sets `+PADDLE_SPEED`, else its second key sets
`-PADDLE_SPEED`, else `0`. -/
def handle_player_input (keyY keyN keyW keyX : Bool) : ℚ × ℚ :=
  (if keyY then PADDLE_SPEED else if keyN then -PADDLE_SPEED else 0,
   if keyW then PADDLE_SPEED else if keyX then -PADDLE_SPEED else 0)

/-- Pressed state of the four keys polled by `handle_player_input`. -/
structure KeyState where
  keyY : Bool
  keyN : Bool
  keyW : Bool
  keyX : Bool
deriving DecidableEq, Repr

/-- The game state touched by the `Update` systems, plus the current display
surface size (the `Window` resolution, which the host may change between
frames — a resize is modelled by rebuilding the record with new
`windowWidth`/`windowHeight`).  `events` holds the `Scored` events emitted
by `detect_scoring` during the most recent frame (the Bevy event queue is
drained by its readers within the frame, so it carries one frame's events). -/
structure World where
  windowWidth : ℚ
  windowHeight : ℚ
  ballPos : Vec2
  ballVel : Vec2
  playerPaddlePos : Vec2
  playerPaddleVy : ℚ
  aiPaddlePos : Vec2
  aiPaddleVy : ℚ
  topGutter : Obstacle
  bottomGutter : Obstacle
  score : Score
  events : List Scorer
deriving DecidableEq, Repr

/-- The non-ball entities matched by `handle_collisions`' `Without<Ball>`
query: both paddles (shape `PADDLE_WIDTH × PADDLE_HEIGHT` from
`PaddleBundle::new`) and both gutters. -/
def worldObstacles (w : World) : List Obstacle :=
  [⟨w.playerPaddlePos, ⟨PADDLE_WIDTH, PADDLE_HEIGHT⟩⟩,
   ⟨w.aiPaddlePos, ⟨PADDLE_WIDTH, PADDLE_HEIGHT⟩⟩,
   w.topGutter, w.bottomGutter]

/-- One `Update` frame, executing the systems in an order consistent with
the `.after` constraints declared in `main`: `move_ball`, then
`handle_collisions` and `handle_player_input`, then `move_paddles`, then
`detect_scoring`, then `update_score` and `reset_ball`.  `r1`, `r2` are the
frame's `rand::random` draws (used only when `reset_ball` consumes an
event; `detect_scoring` emits at most one event per frame). -/
def frame_step (keys : KeyState) (r1 r2 : ℚ) (w : World) : World :=
  let ballPos1 := move_ball w.ballPos w.ballVel
  let ballVel1 :=
    handle_collisions ballPos1 ⟨BALL_RADIUS, BALL_RADIUS⟩ w.ballVel (worldObstacles w)
  let vels := handle_player_input keys.keyY keys.keyN keys.keyW keys.keyX
  let py := move_paddle_y w.playerPaddlePos.y vels.1 w.windowHeight
  let ay := move_paddle_y w.aiPaddlePos.y vels.2 w.windowHeight
  let events := detect_scoring ballPos1 w.windowWidth
  let score1 := update_score w.score events
  let ballState := events.foldl (fun _ e => reset_ball e r1 r2) (ballPos1, ballVel1)
  { w with
    ballPos := ballState.1
    ballVel := ballState.2
    playerPaddlePos := ⟨w.playerPaddlePos.x, py⟩
    playerPaddleVy := vels.1
    aiPaddlePos := ⟨w.aiPaddlePos.x, ay⟩
    aiPaddleVy := vels.2
    score := score1
    events := events }

/-- The `Startup` systems (`spawn_ball`, `spawn_paddles`, `spawn_gutters`),
run once with the window size read at that moment: ball at the origin with
velocity `(5, 0)` (`BallBundle::new(5., 0.)`), paddles at
`x = ∓(width/2 - 50)`, `y = 0`, gutters at `y = ±(height/2 - GUTTER_HEIGHT/2)`
spanning the window width. -/
def spawn_world (W H : ℚ) : World :=
  { windowWidth := W
    windowHeight := H
    ballPos := ⟨0, 0⟩
    ballVel := ⟨5, 0⟩
    playerPaddlePos := ⟨-W / 2 + 50, 0⟩
    playerPaddleVy := 0
    aiPaddlePos := ⟨W / 2 - 50, 0⟩
    aiPaddleVy := 0
    topGutter := ⟨⟨0, H / 2 - GUTTER_HEIGHT / 2⟩, ⟨W, GUTTER_HEIGHT⟩⟩
    bottomGutter := ⟨⟨0, -H / 2 + GUTTER_HEIGHT / 2⟩, ⟨W, GUTTER_HEIGHT⟩⟩
    score := ⟨0, 0⟩
    events := [] }

/-- A resize of the display surface between frames: only the window fields
change; entities keep their state. -/
def resize_window (w : World) (W H : ℚ) : World :=
  { w with windowWidth := W, windowHeight := H }

/-- State for the end-to-end scoring scenario of the spec: the ball
(position and velocity), the score, and running totals of `Scored` events
by side.  The scenario stipulates the ball travels at constant velocity, so
the frame for this state composes exactly the systems the scenario
exercises: `move_ball`, `detect_scoring`, `update_score`, `reset_ball`. -/
structure ScenarioState where
  ballPos : Vec2
  ballVel : Vec2
  score : Score
  playerEvents : ℕ
  aiEvents : ℕ
deriving DecidableEq, Repr

/-- One frame of the scoring-pipeline scenario with window width `W` and
random draws `r1`, `r2`: move the ball, detect scoring, update the score,
and let `reset_ball` consume any event. -/
def scenario_frame (W r1 r2 : ℚ) (s : ScenarioState) : ScenarioState :=
  let pos1 := move_ball s.ballPos s.ballVel
  let events := detect_scoring pos1 W
  let ballState := events.foldl (fun _ e => reset_ball e r1 r2) (pos1, s.ballVel)
  { ballPos := ballState.1
    ballVel := ballState.2
    score := update_score s.score events
    playerEvents := s.playerEvents + events.count Scorer.Player
    aiEvents := s.aiEvents + events.count Scorer.Ai }

/-- The scenario's initial state: ball at `(0,0)` with velocity `(5,0)`
(as spawned by `spawn_ball`), zero score, no events yet. -/
def scenarioInit : ScenarioState :=
  ⟨⟨0, 0⟩, ⟨5, 0⟩, ⟨0, 0⟩, 0, 0⟩

/-! ## Helper lemmas -/

/-- `update_score` adds the event counts of each side to the running score,
modulo the `u32` wrap, provided the starting counters are in `u32` range. -/
lemma update_score_counts (events : List Scorer) (s : Score)
    (hp : s.player < U32_MOD) (ha : s.ai < U32_MOD) :
    update_score s events =
      ⟨(s.player + events.count Scorer.Player) % U32_MOD,
        (s.ai + events.count Scorer.Ai) % U32_MOD⟩ := by
  have hMpos : 0 < U32_MOD := by norm_num [U32_MOD]
  induction events generalizing s with
  | nil => simp [update_score, Nat.mod_eq_of_lt hp, Nat.mod_eq_of_lt ha]
  | cons e tl ih =>
      cases e
      · have hstep : update_score s (Scorer.Player :: tl) =
            update_score ⟨(s.player + 1) % U32_MOD, s.ai⟩ tl := rfl
        rw [hstep, ih ⟨(s.player + 1) % U32_MOD, s.ai⟩ (Nat.mod_lt _ hMpos) ha]
        show Score.mk (((s.player + 1) % U32_MOD + List.count Scorer.Player tl) % U32_MOD)
            ((s.ai + List.count Scorer.Ai tl) % U32_MOD) =
          ⟨(s.player + List.count Scorer.Player (Scorer.Player :: tl)) % U32_MOD,
            (s.ai + List.count Scorer.Ai (Scorer.Player :: tl)) % U32_MOD⟩
        rw [Nat.mod_add_mod, List.count_cons_self,
          List.count_cons_of_ne (by simp) tl]
        congr 2
        omega
      · have hstep : update_score s (Scorer.Ai :: tl) =
            update_score ⟨s.player, (s.ai + 1) % U32_MOD⟩ tl := rfl
        rw [hstep, ih ⟨s.player, (s.ai + 1) % U32_MOD⟩ hp (Nat.mod_lt _ hMpos)]
        show Score.mk ((s.player + List.count Scorer.Player tl) % U32_MOD)
            (((s.ai + 1) % U32_MOD + List.count Scorer.Ai tl) % U32_MOD) =
          ⟨(s.player + List.count Scorer.Player (Scorer.Ai :: tl)) % U32_MOD,
            (s.ai + List.count Scorer.Ai (Scorer.Ai :: tl)) % U32_MOD⟩
        rw [Nat.mod_add_mod, List.count_cons_self,
          List.count_cons_of_ne (by simp) tl]
        congr 2
        omega

/-- The clamp in `move_paddles` lands in the window's paddle band whenever the
window is at least one paddle tall. -/
lemma move_paddle_y_bounds (y vy H : ℚ) (hH : PADDLE_HEIGHT ≤ H) :
    -(H / 2) + PADDLE_HEIGHT / 2 ≤ move_paddle_y y vy H ∧
      move_paddle_y y vy H ≤ H / 2 - PADDLE_HEIGHT / 2 := by
  have h50 : PADDLE_HEIGHT = 50 := rfl
  rw [h50] at hH ⊢
  unfold move_paddle_y
  rw [h50]
  exact ⟨le_min (le_max_right _ _) (by linarith), min_le_right _ _⟩

/-- In a tie `|offset.x| = |offset.y|`, `collide_with_side` reports the
`offset.y`-branch side (Bottom when `offset.y > 0`, else Top). -/
lemma collide_with_side_tie (ball : BoundingCircle) (wall : Aabb2d)
    (hint : ball.intersects wall = true)
    (htie : |(collisionOffset ball wall).x| = |(collisionOffset ball wall).y|) :
    collide_with_side ball wall =
      some (if (collisionOffset ball wall).y > 0 then Collision.Bottom
        else Collision.Top) := by
  unfold collide_with_side
  rw [if_pos hint, if_neg (by rw [htie]; exact lt_irrefl _)]

/-- While the ball has not yet crossed a boundary, a scenario frame is pure
motion: no event, no reset, no score change. -/
lemma scenario_frame_no_event (W r1 r2 : ℚ) (s : ScenarioState)
    (h : detect_scoring (move_ball s.ballPos s.ballVel) W = []) :
    scenario_frame W r1 r2 s =
      ⟨move_ball s.ballPos s.ballVel, s.ballVel, s.score,
        s.playerEvents, s.aiEvents⟩ := by
  simp [scenario_frame, h, update_score]

/-- A frame in which the moved ball triggers a Player-scored event: the
score's player counter increments, the event totals record one Player event,
and the ball state is whatever `reset_ball` produces. -/
lemma scenario_frame_player_event (W r1 r2 : ℚ) (s : ScenarioState)
    (h : detect_scoring (move_ball s.ballPos s.ballVel) W = [Scorer.Player]) :
    scenario_frame W r1 r2 s =
      ⟨(reset_ball Scorer.Player r1 r2).1, (reset_ball Scorer.Player r1 r2).2,
        ⟨(s.score.player + 1) % U32_MOD, s.score.ai⟩,
        s.playerEvents + 1, s.aiEvents⟩ := by
  simp [scenario_frame, h, update_score, update_score_step]

/-- In the end-to-end scenario (width 800, ball starting at the origin with
velocity `(5,0)`), the first 80 frames are pure motion: after `n ≤ 80`
frames the ball is at `(5n, 0)`, no event has fired and the score is zero,
for every value of the random draws. -/
lemma scenario_run (r1 r2 : ℚ) : ∀ n : ℕ, n ≤ 80 →
    (scenario_frame 800 r1 r2)^[n] scenarioInit =
      ⟨⟨5 * (n : ℚ), 0⟩, ⟨5, 0⟩, ⟨0, 0⟩, 0, 0⟩ := by
  intro n
  induction n with
  | zero => intro _; norm_num [scenarioInit]
  | succ k ih =>
      intro hn
      have hk := ih (by omega)
      rw [Function.iterate_succ_apply', hk]
      have hpos : move_ball ⟨5 * (k : ℚ), 0⟩ ⟨5, 0⟩ = ⟨5 * (k : ℚ) + 5, 0⟩ := by
        simp [move_ball]
      have hkle : (k : ℚ) ≤ 79 := by
        have : k ≤ 79 := by omega
        exact_mod_cast this
      have hdet : detect_scoring (move_ball ⟨5 * (k : ℚ), 0⟩ ⟨5, 0⟩) 800 = [] := by
        rw [hpos]
        unfold detect_scoring
        rw [if_neg (by simp only [not_lt]; norm_num; linarith),
          if_neg (by simp only [not_lt]; norm_num; linarith)]
      rw [scenario_frame_no_event _ _ _ _ hdet, hpos]
      have : 5 * ((k : ℚ) + 1) = 5 * (k : ℚ) + 5 := by ring
      push_cast
      rw [this]

/-! ## Claim theorems -/

/-- C1 counterexample: in the end-to-end scenario (arena half-width 400,
ball from `(0,0)` at constant velocity `(5,0)`), after 80 steps the ball is
at `(400, 0)` — it has NOT crossed the scoring boundary (the source
requires `x > 400` strictly) — no Player-scored event has fired, the score
is still `{0, 0}` and the ball has not been reset. -/
theorem C1_counterexample :
    ((scenario_frame 800 0 0)^[80] scenarioInit).ballPos = ⟨400, 0⟩ ∧
    ((scenario_frame 800 0 0)^[80] scenarioInit).playerEvents = 0 ∧
    ((scenario_frame 800 0 0)^[80] scenarioInit).score = ⟨0, 0⟩ := by
  rw [scenario_run 0 0 80 (by norm_num)]
  norm_num

/-- C1 amended: with the ball at `(0,0)` and velocity `(5,0)`, one motion
step yields `(5,0)`; with arena half-width 400, after **81** steps at that
constant velocity the ball has crossed the scoring boundary, exactly one
Player-scored event has fired, the score is `{player: 1, ai: 0}`, and the
ball position has been reset to `(0,0)` — for every value of the random
draws consumed by the reset. -/
theorem C1_scenario (r1 r2 : ℚ) :
    ((scenario_frame 800 r1 r2)^[1] scenarioInit).ballPos = ⟨5, 0⟩ ∧
    ((scenario_frame 800 r1 r2)^[81] scenarioInit).playerEvents = 1 ∧
    ((scenario_frame 800 r1 r2)^[81] scenarioInit).aiEvents = 0 ∧
    ((scenario_frame 800 r1 r2)^[81] scenarioInit).score = ⟨1, 0⟩ ∧
    ((scenario_frame 800 r1 r2)^[81] scenarioInit).ballPos = ⟨0, 0⟩ := by
  have h1 : ((scenario_frame 800 r1 r2)^[1] scenarioInit).ballPos = ⟨5, 0⟩ := by
    rw [scenario_run r1 r2 1 (by norm_num)]
    norm_num
  have h80 := scenario_run r1 r2 80 (by norm_num)
  have h81 : (scenario_frame 800 r1 r2)^[81] scenarioInit =
      scenario_frame 800 r1 r2 ((scenario_frame 800 r1 r2)^[80] scenarioInit) :=
    Function.iterate_succ_apply' _ 80 _
  have hpos : move_ball ⟨5 * ((80 : ℕ) : ℚ), 0⟩ ⟨5, 0⟩ = ⟨405, 0⟩ := by
    simp [move_ball]
    norm_num
  have hdet : detect_scoring
      (move_ball (ScenarioState.mk ⟨5 * ((80 : ℕ) : ℚ), 0⟩ ⟨5, 0⟩ ⟨0, 0⟩ 0 0).ballPos
        (ScenarioState.mk ⟨5 * ((80 : ℕ) : ℚ), 0⟩ ⟨5, 0⟩ ⟨0, 0⟩ 0 0).ballVel) 800 =
      [Scorer.Player] := by
    show detect_scoring (move_ball ⟨5 * ((80 : ℕ) : ℚ), 0⟩ ⟨5, 0⟩) 800 = [Scorer.Player]
    rw [hpos]
    unfold detect_scoring
    rw [if_pos (by norm_num)]
  rw [h81, h80, scenario_frame_player_event 800 r1 r2 _ hdet]
  exact ⟨h1, rfl, rfl, rfl, rfl⟩

/-- C2: on every frame, `detect_scoring` emits exactly one Player-scored
event when the ball's x strictly exceeds `+windowWidth/2`, exactly one
Ai-scored event when the ball's x is strictly below `-windowWidth/2`, and no
event when the ball's x is strictly within those bounds. -/
theorem C2_detect_scoring_exact (p : Vec2) (W : ℚ) (hW : 0 ≤ W) :
    (W / 2 < p.x → detect_scoring p W = [Scorer.Player]) ∧
    (p.x < -W / 2 → detect_scoring p W = [Scorer.Ai]) ∧
    (-W / 2 < p.x → p.x < W / 2 → detect_scoring p W = []) := by
  unfold detect_scoring
  refine ⟨fun h => ?_, fun h => ?_, fun h1 h2 => ?_⟩
  · rw [if_pos h]
  · rw [if_neg (by simp only [not_lt]; linarith), if_pos h]
  · rw [if_neg (by simp only [not_lt]; linarith),
      if_neg (by simp only [not_lt]; linarith)]

/-- Witness for C2 at window width 800: x = 401 scores for Player,
x = -401 scores for Ai, x = 399 scores for nobody. -/
theorem C2_witness :
    detect_scoring ⟨401, 0⟩ 800 = [Scorer.Player] ∧
    detect_scoring ⟨-401, 0⟩ 800 = [Scorer.Ai] ∧
    detect_scoring ⟨399, 0⟩ 800 = [] :=
  ⟨(C2_detect_scoring_exact ⟨401, 0⟩ 800 (by norm_num)).1 (by norm_num),
   (C2_detect_scoring_exact ⟨-401, 0⟩ 800 (by norm_num)).2.1 (by norm_num),
   (C2_detect_scoring_exact ⟨399, 0⟩ 800 (by norm_num)).2.2 (by norm_num) (by norm_num)⟩

/-- C5: for every `Scored` event consumed by `reset_ball`, the ball position
is set exactly to `(0,0)`, and for every value of the random draws in
`[0,1)` the new x-velocity is strictly negative when Player scored and
strictly positive when Ai scored. -/
theorem C5_reset_serve (scorer : Scorer) (r1 r2 : ℚ)
    (h1 : 0 ≤ r1 ∧ r1 < 1) (h2 : 0 ≤ r2 ∧ r2 < 1) :
    (reset_ball scorer r1 r2).1 = ⟨0, 0⟩ ∧
    (scorer = Scorer.Player → (reset_ball scorer r1 r2).2.x < 0) ∧
    (scorer = Scorer.Ai → 0 < (reset_ball scorer r1 r2).2.x) := by
  obtain ⟨h2a, -⟩ := h2
  refine ⟨rfl, ?_, ?_⟩ <;> rintro rfl <;> simp [reset_ball] <;> nlinarith

/-- Witness for C5 with draws `r1 = r2 = 1/2` for each scorer. -/
theorem C5_witness :
    ((reset_ball Scorer.Player (1/2) (1/2)).1 = ⟨0, 0⟩ ∧
      (Scorer.Player = Scorer.Player → (reset_ball Scorer.Player (1/2) (1/2)).2.x < 0) ∧
      (Scorer.Player = Scorer.Ai → 0 < (reset_ball Scorer.Player (1/2) (1/2)).2.x)) ∧
    ((reset_ball Scorer.Ai (1/2) (1/2)).1 = ⟨0, 0⟩ ∧
      (Scorer.Ai = Scorer.Player → (reset_ball Scorer.Ai (1/2) (1/2)).2.x < 0) ∧
      (Scorer.Ai = Scorer.Ai → 0 < (reset_ball Scorer.Ai (1/2) (1/2)).2.x)) :=
  ⟨C5_reset_serve Scorer.Player (1/2) (1/2) ⟨by norm_num, by norm_num⟩
      ⟨by norm_num, by norm_num⟩,
   C5_reset_serve Scorer.Ai (1/2) (1/2) ⟨by norm_num, by norm_num⟩
      ⟨by norm_num, by norm_num⟩⟩

/-- C6: for every reset and every value of the random draws, the velocity
assigned by `reset_ball` is not the zero vector; its Y component is pushed
away from zero by the fixed offset `4`, so `|v.y| ≥ 4`.  (Proved for all
rational draws, in particular for draws in `[0,1)`.) -/
theorem C6_reset_velocity_nonzero (scorer : Scorer) (r1 r2 : ℚ) :
    4 ≤ |(reset_ball scorer r1 r2).2.y| ∧ (reset_ball scorer r1 r2).2 ≠ ⟨0, 0⟩ := by
  have hy : (reset_ball scorer r1 r2).2.y =
      (r1 - 1/2) * 3 + signumF32 ((r1 - 1/2) * 3) * 4 := rfl
  have key : 4 ≤ |(r1 - 1/2) * 3 + signumF32 ((r1 - 1/2) * 3) * 4| := by
    unfold signumF32
    rcases lt_or_le ((r1 - 1/2) * 3) 0 with h | h
    · rw [if_pos h, abs_of_nonpos (by linarith)]; linarith
    · rw [if_neg (not_lt.mpr h), abs_of_nonneg (by linarith)]; linarith
  refine ⟨by rw [hy]; exact key, fun hcontra => ?_⟩
  have hzero : (reset_ball scorer r1 r2).2.y = 0 := by rw [hcontra]
  rw [hy] at hzero
  rw [hzero] at key
  norm_num at key

/-- C7: for every window height `H ≥ PADDLE_HEIGHT`, every paddle velocity,
and every prior in-bounds paddle Y, the paddle Y after one motion-plus-clamp
step of `move_paddles` lies within
`[-H/2 + PADDLE_HEIGHT/2, H/2 - PADDLE_HEIGHT/2]`. -/
theorem C7_paddle_clamp (H y vy : ℚ) (hH : PADDLE_HEIGHT ≤ H)
    (hy : -(H / 2) + PADDLE_HEIGHT / 2 ≤ y ∧ y ≤ H / 2 - PADDLE_HEIGHT / 2) :
    -(H / 2) + PADDLE_HEIGHT / 2 ≤ move_paddle_y y vy H ∧
      move_paddle_y y vy H ≤ H / 2 - PADDLE_HEIGHT / 2 :=
  move_paddle_y_bounds y vy H hH

/-- Witness for C7: height 600, paddle at center, extreme velocity 1000. -/
theorem C7_witness :
    -((600:ℚ) / 2) + PADDLE_HEIGHT / 2 ≤ move_paddle_y 0 1000 600 ∧
      move_paddle_y 0 1000 600 ≤ (600:ℚ) / 2 - PADDLE_HEIGHT / 2 :=
  C7_paddle_clamp 600 0 1000 (by norm_num [PADDLE_HEIGHT])
    ⟨by norm_num [PADDLE_HEIGHT], by norm_num [PADDLE_HEIGHT]⟩

/-- C8 counterexample: the counters are `u32`, so on the interleaving of
`N = 2^32` Player-scored events and `M = 0` Ai-scored events the player
counter wraps and the final score is `{0, 0}`, not `{player: 2^32, ai: 0}`
as the claim requires for every `N`, `M`. -/
theorem C8_counterexample :
    (List.replicate (2 ^ 32) Scorer.Player).count Scorer.Player = 2 ^ 32 ∧
    update_score ⟨0, 0⟩ (List.replicate (2 ^ 32) Scorer.Player) = ⟨0, 0⟩ ∧
    Score.mk 0 0 ≠ ⟨2 ^ 32, 0⟩ := by
  have h0 : (0 : ℕ) < U32_MOD := by norm_num [U32_MOD]
  have hcount : (List.replicate (2 ^ 32) Scorer.Player).count Scorer.Player = 2 ^ 32 :=
    List.count_replicate_self Scorer.Player (2 ^ 32)
  have hcountA : (List.replicate (2 ^ 32) Scorer.Player).count Scorer.Ai = 0 := by
    rw [List.count_replicate]
    rfl
  refine ⟨hcount, ?_, ?_⟩
  · rw [update_score_counts _ _ h0 h0, hcount, hcountA]
    norm_num [U32_MOD]
  · intro h
    have hplayer := congrArg Score.player h
    norm_num at hplayer

/-- C8 amended: for every interleaving of `N` Player-scored and `M`
Ai-scored events with `N` and `M` in `u32` range (below `2^32`), processing
them with `update_score` from the initial score `{0, 0}` yields exactly
`{player: N, ai: M}`, and the counters are monotonically non-decreasing
across steps (every prefix of the event sequence yields componentwise
smaller-or-equal counters).  With `N` or `M` at `2^32` the `u32` counter
wraps and the exact-count statement fails. -/
theorem C8_score_counts (pre post : List Scorer) (N M : ℕ)
    (hN : (pre ++ post).count Scorer.Player = N)
    (hM : (pre ++ post).count Scorer.Ai = M)
    (hNlt : N < U32_MOD) (hMlt : M < U32_MOD) :
    update_score ⟨0, 0⟩ (pre ++ post) = ⟨N, M⟩ ∧
    (update_score ⟨0, 0⟩ pre).player ≤ (update_score ⟨0, 0⟩ (pre ++ post)).player ∧
    (update_score ⟨0, 0⟩ pre).ai ≤ (update_score ⟨0, 0⟩ (pre ++ post)).ai := by
  have h0 : (0 : ℕ) < U32_MOD := by norm_num [U32_MOD]
  subst hN hM
  have hpreP : pre.count Scorer.Player ≤ (pre ++ post).count Scorer.Player := by
    simp [List.count_append]
  have hpreA : pre.count Scorer.Ai ≤ (pre ++ post).count Scorer.Ai := by
    simp [List.count_append]
  rw [update_score_counts _ _ h0 h0, update_score_counts _ _ h0 h0]
  simp only [Nat.zero_add]
  rw [Nat.mod_eq_of_lt hNlt, Nat.mod_eq_of_lt hMlt,
    Nat.mod_eq_of_lt (lt_of_le_of_lt hpreP hNlt),
    Nat.mod_eq_of_lt (lt_of_le_of_lt hpreA hMlt)]
  exact ⟨rfl, hpreP, hpreA⟩

/-- Witness for C8 on the interleaving `[Player, Ai, Player]` split after its
first event: final score `{2, 1}` and prefix monotonicity. -/
theorem C8_witness :
    update_score ⟨0, 0⟩ ([Scorer.Player] ++ [Scorer.Ai, Scorer.Player]) = ⟨2, 1⟩ ∧
    (update_score ⟨0, 0⟩ [Scorer.Player]).player ≤
      (update_score ⟨0, 0⟩ ([Scorer.Player] ++ [Scorer.Ai, Scorer.Player])).player ∧
    (update_score ⟨0, 0⟩ [Scorer.Player]).ai ≤
      (update_score ⟨0, 0⟩ ([Scorer.Player] ++ [Scorer.Ai, Scorer.Player])).ai :=
  C8_score_counts [Scorer.Player] [Scorer.Ai, Scorer.Player] 2 1 (by decide) (by decide)
    (by norm_num [U32_MOD]) (by norm_num [U32_MOD])

/-- C3: whenever the ball's bounding circle intersects an obstacle box and
the offset from the box's closest point to the circle center satisfies
`|offset.x| = |offset.y|` exactly (including the zero offset when the center
lies inside the box), `collide_with_side` classifies the hit in the
Top/Bottom family, and the collision response inverts only the Y velocity
component. -/
theorem C3_tie_break_top_bottom (ballPos ballShape v : Vec2) (ob : Obstacle)
    (hint : (ballCircle ballPos ballShape).intersects (obstacleBox ob) = true)
    (htie : |(collisionOffset (ballCircle ballPos ballShape) (obstacleBox ob)).x| =
      |(collisionOffset (ballCircle ballPos ballShape) (obstacleBox ob)).y|) :
    (collide_with_side (ballCircle ballPos ballShape) (obstacleBox ob) =
        some Collision.Top ∨
      collide_with_side (ballCircle ballPos ballShape) (obstacleBox ob) =
        some Collision.Bottom) ∧
    handle_collisions_step ballPos ballShape v ob = ⟨v.x, -v.y⟩ := by
  have hcol := collide_with_side_tie _ _ hint htie
  by_cases hpos :
      (collisionOffset (ballCircle ballPos ballShape) (obstacleBox ob)).y > 0
  · rw [if_pos hpos] at hcol
    exact ⟨Or.inr hcol, by unfold handle_collisions_step; rw [hcol]; rfl⟩
  · rw [if_neg hpos] at hcol
    exact ⟨Or.inl hcol, by unfold handle_collisions_step; rw [hcol]; rfl⟩

/-- Witness for C3: circle of radius 2 centered at `(3,3)` against the box of
an obstacle at `(1,1)` with shape `(2,2)`; the closest point is the corner
`(2,2)`, the offset is `(1,1)` — an exact tie — and only `v.y` flips. -/
theorem C3_witness :
    (collide_with_side (ballCircle ⟨3, 3⟩ ⟨2, 2⟩) (obstacleBox ⟨⟨1, 1⟩, ⟨2, 2⟩⟩) =
        some Collision.Top ∨
      collide_with_side (ballCircle ⟨3, 3⟩ ⟨2, 2⟩) (obstacleBox ⟨⟨1, 1⟩, ⟨2, 2⟩⟩) =
        some Collision.Bottom) ∧
    handle_collisions_step ⟨3, 3⟩ ⟨2, 2⟩ ⟨5, 7⟩ ⟨⟨1, 1⟩, ⟨2, 2⟩⟩ = ⟨5, -7⟩ :=
  C3_tie_break_top_bottom ⟨3, 3⟩ ⟨2, 2⟩ ⟨5, 7⟩ ⟨⟨1, 1⟩, ⟨2, 2⟩⟩
    (by norm_num [ballCircle, obstacleBox, BoundingCircle.intersects, Aabb2d.new,
      Aabb2d.closestPoint, distanceSquared])
    (by norm_num [ballCircle, obstacleBox, collisionOffset, Aabb2d.new,
      Aabb2d.closestPoint])

/-- C4 counterexample: at the exact touching configuration — circle of
radius 1 centered at `(3,0)`, obstacle box `[0,2] × [-1,1]`, closest point
`(2,0)`, distance from center to closest point equal to the radius — the
claim says the velocity is unchanged, but `handle_collisions` reflects
`(5,0)` to `(-5,0)` because the intersection test of the source accepts
`distance² ≤ radius²`. -/
theorem C4_counterexample :
    (ballCircle ⟨3, 0⟩ ⟨1, 1⟩).radius ^ 2 ≤
      distanceSquared ⟨3, 0⟩ ((obstacleBox ⟨⟨1, 0⟩, ⟨2, 2⟩⟩).closestPoint ⟨3, 0⟩) ∧
    0 ≤ (ballCircle ⟨3, 0⟩ ⟨1, 1⟩).radius ∧
    handle_collisions_step ⟨3, 0⟩ ⟨1, 1⟩ ⟨5, 0⟩ ⟨⟨1, 0⟩, ⟨2, 2⟩⟩ ≠ ⟨5, 0⟩ := by
  refine ⟨by norm_num [ballCircle, obstacleBox, Aabb2d.new, Aabb2d.closestPoint,
    distanceSquared], by norm_num [ballCircle], ?_⟩
  have hstep : handle_collisions_step ⟨3, 0⟩ ⟨1, 1⟩ ⟨5, 0⟩ ⟨⟨1, 0⟩, ⟨2, 2⟩⟩ = ⟨-5, 0⟩ := by
    have hcol : collide_with_side (ballCircle ⟨3, 0⟩ ⟨1, 1⟩)
        (obstacleBox ⟨⟨1, 0⟩, ⟨2, 2⟩⟩) = some Collision.Left := by
      unfold collide_with_side
      rw [if_pos (by norm_num [ballCircle, obstacleBox, BoundingCircle.intersects,
        Aabb2d.new, Aabb2d.closestPoint, distanceSquared])]
      rw [if_pos (by norm_num [ballCircle, obstacleBox, collisionOffset, Aabb2d.new,
        Aabb2d.closestPoint])]
      rw [if_pos (by norm_num [ballCircle, obstacleBox, collisionOffset, Aabb2d.new,
        Aabb2d.closestPoint])]
    unfold handle_collisions_step
    rw [hcol]
    rfl
  rw [hstep]
  simp only [ne_eq, Vec2.mk.injEq, not_and]
  intro h
  norm_num at h

/-- C4 amended: if the ball's bounding circle is strictly outside the
obstacle box — the distance from the circle center to the box's closest
point strictly greater than the radius, stated on squares — the collision
system leaves the ball's velocity unchanged.  (At distance exactly equal to
the radius the source's `≤`-test reports a collision and reflects the
velocity, so the claim's non-strict bound fails there.) -/
theorem C4_no_overlap_no_change (ballPos ballShape v : Vec2) (ob : Obstacle)
    (hd : (ballCircle ballPos ballShape).radius ^ 2 <
      distanceSquared ballPos ((obstacleBox ob).closestPoint ballPos)) :
    handle_collisions_step ballPos ballShape v ob = v := by
  have hfalse : (ballCircle ballPos ballShape).intersects (obstacleBox ob) = false := by
    simp only [BoundingCircle.intersects, decide_eq_false_iff_not, not_le]
    exact hd
  unfold handle_collisions_step collide_with_side
  rw [hfalse]
  simp

/-- Witness for C4 amended: circle of radius 1 centered at `(10,0)` far from
the box `[0,2] × [-1,1]`; velocity `(5,0)` is unchanged. -/
theorem C4_witness :
    (ballCircle ⟨10, 0⟩ ⟨1, 1⟩).radius ^ 2 <
      distanceSquared ⟨10, 0⟩ ((obstacleBox ⟨⟨1, 0⟩, ⟨2, 2⟩⟩).closestPoint ⟨10, 0⟩) ∧
    handle_collisions_step ⟨10, 0⟩ ⟨1, 1⟩ ⟨5, 0⟩ ⟨⟨1, 0⟩, ⟨2, 2⟩⟩ = ⟨5, 0⟩ := by
  have hd : (ballCircle ⟨10, 0⟩ ⟨1, 1⟩).radius ^ 2 <
      distanceSquared ⟨10, 0⟩ ((obstacleBox ⟨⟨1, 0⟩, ⟨2, 2⟩⟩).closestPoint ⟨10, 0⟩) := by
    norm_num [ballCircle, obstacleBox, Aabb2d.new, Aabb2d.closestPoint, distanceSquared]
  exact ⟨hd, C4_no_overlap_no_change ⟨10, 0⟩ ⟨1, 1⟩ ⟨5, 0⟩ ⟨⟨1, 0⟩, ⟨2, 2⟩⟩ hd⟩

/-- C9 counterexample: spawn with a 800×600 window, resize the surface to
1000×800, and run one frame (no keys pressed): the top gutter still sits at
`y = 290 = 600/2 - GUTTER_HEIGHT/2` — the placement computed at spawn — and
not at `390 = 800/2 - GUTTER_HEIGHT/2`, the placement the current surface
height dictates.  Gutter placement is therefore not recomputed per frame. -/
theorem C9_counterexample :
    (frame_step ⟨false, false, false, false⟩ 0 0
        (resize_window (spawn_world 800 600) 1000 800)).topGutter.position.y = 290 ∧
    (resize_window (spawn_world 800 600) 1000 800).windowHeight / 2 -
      GUTTER_HEIGHT / 2 = 390 ∧
    (290 : ℚ) ≠ 390 := by
  have hg : (frame_step ⟨false, false, false, false⟩ 0 0
      (resize_window (spawn_world 800 600) 1000 800)).topGutter =
      (resize_window (spawn_world 800 600) 1000 800).topGutter := rfl
  rw [hg]
  refine ⟨?_, ?_, by norm_num⟩ <;>
    norm_num [resize_window, spawn_world, GUTTER_HEIGHT]

/-- C9 amended: on every frame, the paddle clamp bounds and the scoring
boundary are recomputed from the current display-surface size (after a
resize they reflect the new size on the next frame), but the gutter
placement is computed once at spawn and never recomputed: a frame leaves
both gutters unchanged, the frame's scoring events are those of
`detect_scoring` at the current window width, and the paddles are clamped
into the band determined by the current window height. -/
theorem C9_bounds_recomputation (keys : KeyState) (r1 r2 : ℚ) (w : World)
    (hH : PADDLE_HEIGHT ≤ w.windowHeight) :
    (frame_step keys r1 r2 w).topGutter = w.topGutter ∧
    (frame_step keys r1 r2 w).bottomGutter = w.bottomGutter ∧
    (frame_step keys r1 r2 w).events =
      detect_scoring (move_ball w.ballPos w.ballVel) w.windowWidth ∧
    (-(w.windowHeight / 2) + PADDLE_HEIGHT / 2 ≤
        (frame_step keys r1 r2 w).playerPaddlePos.y ∧
      (frame_step keys r1 r2 w).playerPaddlePos.y ≤
        w.windowHeight / 2 - PADDLE_HEIGHT / 2) ∧
    (-(w.windowHeight / 2) + PADDLE_HEIGHT / 2 ≤
        (frame_step keys r1 r2 w).aiPaddlePos.y ∧
      (frame_step keys r1 r2 w).aiPaddlePos.y ≤
        w.windowHeight / 2 - PADDLE_HEIGHT / 2) := by
  refine ⟨rfl, rfl, rfl, ?_, ?_⟩
  · have hp : (frame_step keys r1 r2 w).playerPaddlePos.y =
        move_paddle_y w.playerPaddlePos.y
          (handle_player_input keys.keyY keys.keyN keys.keyW keys.keyX).1
          w.windowHeight := rfl
    rw [hp]
    exact move_paddle_y_bounds _ _ _ hH
  · have ha : (frame_step keys r1 r2 w).aiPaddlePos.y =
        move_paddle_y w.aiPaddlePos.y
          (handle_player_input keys.keyY keys.keyN keys.keyW keys.keyX).2
          w.windowHeight := rfl
    rw [ha]
    exact move_paddle_y_bounds _ _ _ hH

/-- The world spawned with a 800×600 window, used as the concrete instance
for the per-frame bound recomputation property. -/
def demoWorld : World := spawn_world 800 600

/-- Witness for C9 amended on the 800×600 world with no keys pressed. -/
theorem C9_witness :
    (frame_step ⟨false, false, false, false⟩ 0 0 demoWorld).topGutter =
      demoWorld.topGutter ∧
    (frame_step ⟨false, false, false, false⟩ 0 0 demoWorld).bottomGutter =
      demoWorld.bottomGutter ∧
    (frame_step ⟨false, false, false, false⟩ 0 0 demoWorld).events =
      detect_scoring (move_ball demoWorld.ballPos demoWorld.ballVel)
        demoWorld.windowWidth ∧
    (-(demoWorld.windowHeight / 2) + PADDLE_HEIGHT / 2 ≤
        (frame_step ⟨false, false, false, false⟩ 0 0 demoWorld).playerPaddlePos.y ∧
      (frame_step ⟨false, false, false, false⟩ 0 0 demoWorld).playerPaddlePos.y ≤
        demoWorld.windowHeight / 2 - PADDLE_HEIGHT / 2) ∧
    (-(demoWorld.windowHeight / 2) + PADDLE_HEIGHT / 2 ≤
        (frame_step ⟨false, false, false, false⟩ 0 0 demoWorld).aiPaddlePos.y ∧
      (frame_step ⟨false, false, false, false⟩ 0 0 demoWorld).aiPaddlePos.y ≤
        demoWorld.windowHeight / 2 - PADDLE_HEIGHT / 2) :=
  C9_bounds_recomputation ⟨false, false, false, false⟩ 0 0 demoWorld
    (by norm_num [demoWorld, spawn_world, PADDLE_HEIGHT])

/-- C10: if both direction keys of one paddle are pressed simultaneously,
`handle_player_input` assigns that paddle `velocity.y = +PADDLE_SPEED` (the
first-checked, upward key wins), whatever the other paddle's keys do; this
holds for the Player pair (KeyY/KeyN) and the Ai pair (KeyW/KeyX). -/
theorem C10_simultaneous_keys (a b : Bool) :
    (handle_player_input true true a b).1 = PADDLE_SPEED ∧
    (handle_player_input a b true true).2 = PADDLE_SPEED :=
  ⟨rfl, rfl⟩

end Pong
